import Mathlib

/-!
Shallow embedding of the quiz backend (src/server.js) of the children's
cybersecurity quiz application, together with proofs about its adaptive
question selector, answer-submission pipeline, badge awarder and
category-reset operation.

The relational store (tables created by src/setup-database.js) is embedded
as lists of rows in a `DB` record.  Each SQL statement executed by the
handlers in src/server.js is embedded as a pure function on `DB`.  Columns
that the embedded logic never reads (timestamps, icons, display names,
descriptions, hint texts, image urls) are omitted from the row types.
MySQL DECIMAL columns are embedded as exact rationals.

Two MySQL-specific semantic points are embedded faithfully:
* single-table UPDATE (and the UPDATE clause of INSERT ... ON DUPLICATE KEY
  UPDATE) evaluates its assignments left to right, and a reference to a
  column in a later assignment sees the value already assigned earlier in
  the same statement (MySQL reference manual, UPDATE statement: the second
  assignment in "SET col1 = col1 + 1, col2 = col1" sets col2 to the
  updated col1, not the original col1);
* ORDER BY RAND() LIMIT 1 picks one row of the result set; it is embedded
  as a choice function `pick` parameterised by a seed, so theorems
  quantify over every possible draw.
-/

/-- A row of the users table. -/
structure User where
  id : Nat
  total_points : Nat
  current_streak : Nat
  best_streak : Nat
deriving DecidableEq

/-- A row of the categories table. -/
structure Category where
  id : Nat
  total_questions : Nat
deriving DecidableEq

/-- A row of the question_types table. -/
structure QuestionType where
  id : Nat
  type_name : String
  difficulty_level : String
deriving DecidableEq

/-- A row of the questions table. -/
structure Question where
  id : Nat
  category_id : Nat
  question_type_id : Nat
  points : Nat
  is_active : Bool
  explanation : String
deriving DecidableEq

/-- A row of the answer_options table.  MySQL BOOLEAN is TINYINT and the
handler compares it with the number 1 (`is_correct === 1`), so the column
is embedded as a natural number. -/
structure AnswerOption where
  id : Nat
  question_id : Nat
  option_text : String
  is_correct : Nat
deriving DecidableEq

/-- A row of the question_attempts table. -/
structure QuestionAttempt where
  user_id : Nat
  question_id : Nat
  question_type_id : Nat
  selected_answer_id : Nat
  is_correct : Bool
  time_taken : Rat
  hint_used : Bool
deriving DecidableEq

/-- A row of the user_progress table (unique key on (user_id, category_id)). -/
structure UserProgress where
  user_id : Nat
  category_id : Nat
  questions_answered : Nat
  correct_answers : Nat
  points_earned : Nat
  is_completed : Bool
deriving DecidableEq

/-- A row of the user_question_type_performance table (unique key on
(user_id, question_type_id)). -/
structure TypePerformance where
  user_id : Nat
  question_type_id : Nat
  total_attempts : Nat
  correct_attempts : Nat
  success_rate : Rat
  avg_time_taken : Rat
deriving DecidableEq

/-- A row of the badges table. -/
structure Badge where
  id : Nat
  requirement_type : String
  requirement_value : Nat
  category_id : Option Nat
deriving DecidableEq

/-- A row of the user_badges table. -/
structure UserBadge where
  user_id : Nat
  badge_id : Nat
deriving DecidableEq

/-- The whole relational store. -/
structure DB where
  users : List User
  categories : List Category
  question_types : List QuestionType
  questions : List Question
  answer_options : List AnswerOption
  question_attempts : List QuestionAttempt
  user_progress : List UserProgress
  user_question_type_performance : List TypePerformance
  badges : List Badge
  user_badges : List UserBadge
deriving DecidableEq

/-- ORDER BY RAND() LIMIT 1: one row of the result set, chosen by the
seed `r`; every row is reachable by some seed, the empty set yields none. -/
def pick (r : Nat) : List α → Option α
  | [] => none
  | x :: xs => (x :: xs).get? (r % (x :: xs).length)

/-- One row of the performance query of getAdaptiveQuestion
(src/server.js lines 88-96): question type joined with the user's
performance row; `raw_success`/`raw_attempts` keep the pre-COALESCE
values (NULL when the LEFT JOIN found no row) because the ORDER BY
sorts on the raw columns, where NULL sorts before every value. -/
structure PerfRow where
  id : Nat
  type_name : String
  success_rate : Rat
  total_attempts : Nat
  raw_success : Option Rat
  raw_attempts : Option Nat
deriving DecidableEq

/-- Comparison on a nullable attempts column: NULL sorts first ascending. -/
def optNatLE : Option Nat → Option Nat → Bool
  | none, _ => true
  | some _, none => false
  | some a, some b => a ≤ b

/-- ORDER BY utqp.success_rate ASC, utqp.total_attempts ASC with MySQL
NULL-first ascending semantics. -/
def perfLE (a b : PerfRow) : Bool :=
  match a.raw_success, b.raw_success with
  | none, none => optNatLE a.raw_attempts b.raw_attempts
  | none, some _ => true
  | some _, none => false
  | some x, some y =>
    if x < y then true
    else if y < x then false
    else optNatLE a.raw_attempts b.raw_attempts

/-- Insertion step of the sort used to embed ORDER BY. -/
def insertSorted (le : α → α → Bool) (x : α) : List α → List α
  | [] => [x]
  | y :: ys => if le x y then x :: y :: ys else y :: insertSorted le x ys

/-- Insertion sort used to embed ORDER BY (MySQL fixes no order among
ties; this embedding fixes one). -/
def sortByLE (le : α → α → Bool) : List α → List α
  | [] => []
  | x :: xs => insertSorted le x (sortByLE le xs)

/-- The `performance` result set of getAdaptiveQuestion: every question
type, LEFT JOINed with the user's performance row, COALESCEd to 0,
ordered by raw success_rate then raw total_attempts ascending. -/
def perfRows (st : DB) (uid : Nat) : List PerfRow :=
  sortByLE perfLE (st.question_types.map (fun qt =>
    match st.user_question_type_performance.find?
        (fun p => decide (p.user_id = uid ∧ p.question_type_id = qt.id)) with
    | some p => ⟨qt.id, qt.type_name, p.success_rate, p.total_attempts,
                 some p.success_rate, some p.total_attempts⟩
    | none => ⟨qt.id, qt.type_name, 0, 0, none, none⟩))

/-- Default target type: `performance[0]?.id || 1` (JavaScript `||`:
an id of 0 would also fall back to 1). -/
def defaultTargetTypeId (st : DB) (uid : Nat) : Nat :=
  match (perfRows st uid).head? with
  | some p => if p.id = 0 then 1 else p.id
  | none => 1

/-- `performance.find(p => p.success_rate < 60 && p.total_attempts >= 3)`. -/
def strugglingFound (st : DB) (uid : Nat) : Option PerfRow :=
  (perfRows st uid).find? (fun p => decide (p.success_rate < 60 ∧ 3 ≤ p.total_attempts))

/-- The easier-format query: types with difficulty_level = 'easy' and
type_name IN ('visual_choice', 'true_false'). -/
def easierTypes (st : DB) : List QuestionType :=
  st.question_types.filter (fun qt =>
    decide (qt.difficulty_level = "easy" ∧
      (qt.type_name = "visual_choice" ∨ qt.type_name = "true_false")))

/-- Target question type of the adaptive selector (src/server.js lines
98-113): the head of the performance ordering, overridden by a randomly
chosen easier type when some type is struggling. -/
def targetTypeId (st : DB) (uid r1 : Nat) : Nat :=
  match strugglingFound st uid with
  | some _ =>
    match pick r1 (easierTypes st) with
    | some t => t.id
    | none => defaultTargetTypeId st uid
  | none => defaultTargetTypeId st uid

/-- JOIN question_types qt ON q.question_type_id = qt.id succeeds. -/
def typeExists (st : DB) (tid : Nat) : Bool :=
  st.question_types.any (fun qt => decide (qt.id = tid))

/-- `q.id IN (SELECT question_id FROM question_attempts WHERE user_id = ?)`. -/
def attemptedBy (st : DB) (uid qid : Nat) : Bool :=
  st.question_attempts.any (fun a => decide (a.user_id = uid ∧ a.question_id = qid))

/-- Result set of the selector's main query: active questions of the
category and target type, joined with their type, not yet attempted. -/
def typedCandidates (st : DB) (uid cid tid : Nat) : List Question :=
  st.questions.filter (fun q =>
    decide (q.category_id = cid ∧ q.question_type_id = tid) &&
    q.is_active && typeExists st q.question_type_id && ! attemptedBy st uid q.id)

/-- Result set of the selector's fallback query: any active, unattempted
question of the category. -/
def anyCandidates (st : DB) (uid cid : Nat) : List Question :=
  st.questions.filter (fun q =>
    decide (q.category_id = cid) &&
    q.is_active && typeExists st q.question_type_id && ! attemptedBy st uid q.id)

/-- getAdaptiveQuestion (src/server.js lines 84-155): one unattempted
question of the target type, else one unattempted question of any type,
else none.  r1, r2 and r3 are the draws of the three ORDER BY RAND(). -/
def getAdaptiveQuestion (st : DB) (uid cid r1 r2 r3 : Nat) : Option Question :=
  match pick r2 (typedCandidates st uid cid (targetTypeId st uid r1)) with
  | some q => some q
  | none => pick r3 (anyCandidates st uid cid)

/-- Question lookup of the answer handler (src/server.js lines 451-461):
SELECT joined with question_types; a missing type row means zero result
rows, reported as question not found. -/
def questionLookup (st : DB) (qid : Nat) : Option Question :=
  st.questions.find? (fun q => decide (q.id = qid) && typeExists st q.question_type_id)

/-- Option lookup of the answer handler (src/server.js lines 466-473):
SELECT is_correct FROM answer_options WHERE id = ? — the submitted
question id is not part of the query. -/
def optionLookup (st : DB) (oid : Nat) : Option AnswerOption :=
  st.answer_options.find? (fun o => decide (o.id = oid))

/-- Validation and scoring portion of POST /api/answers (src/server.js
lines 451-478).  Errors are the 400 responses of the handler. -/
def evaluateAnswer (st : DB) (qid oid : Nat) :
    Except String (Question × AnswerOption × Bool × Nat) :=
  match questionLookup st qid with
  | none => .error "Question not found"
  | some q =>
    match optionLookup st oid with
    | none => .error "Answer option not found"
    | some o =>
      let c : Bool := decide (o.is_correct = 1)
      .ok (q, o, c, if o.is_correct = 1 then q.points else 0)

/-- The attempt row inserted by src/server.js lines 481-485. -/
def mkAttempt (uid qid tid oid : Nat) (c : Bool) (t : Rat) (h : Bool) : QuestionAttempt :=
  ⟨uid, qid, tid, oid, c, t, h⟩

/-- INSERT INTO question_attempts. -/
def insertAttempt (st : DB) (a : QuestionAttempt) : DB :=
  { st with question_attempts := st.question_attempts ++ [a] }

/-- The UPDATE users statement of the answer handler (src/server.js lines
488-500).  MySQL evaluates the three assignments left to right; by the
time GREATEST(best_streak, current_streak + 1) is evaluated,
current_streak already holds its incremented value, so the second
GREATEST argument is (old current_streak + 1) + 1. -/
def userAfterAnswer (c : Bool) (pe : Nat) (u : User) : User :=
  if c then
    { u with total_points := u.total_points + pe,
             current_streak := u.current_streak + 1,
             best_streak := max u.best_streak (u.current_streak + 1 + 1) }
  else { u with current_streak := 0 }

/-- WHERE id = ? on the users table. -/
def userKey (uid : Nat) (u : User) : Bool := decide (u.id = uid)

/-- UPDATE users ... WHERE id = ?. -/
def updateUsers (st : DB) (uid : Nat) (c : Bool) (pe : Nat) : DB :=
  { st with users := st.users.map (fun u => if userKey uid u then userAfterAnswer c pe u else u) }

/-- The (user_id, category_id) unique key of user_progress. -/
def progKey (uid cid : Nat) (r : UserProgress) : Bool :=
  decide (r.user_id = uid ∧ r.category_id = cid)

/-- The CASE of the progress upsert, evaluated after questions_answered
has already been incremented to `qa`: `(questions_answered + 1) >=
(SELECT total_questions FROM categories WHERE id = ?)`.  A missing
category makes the subquery NULL and the comparison NULL, so the CASE
takes its ELSE 0 branch. -/
def completedAfterUpdate (st : DB) (cid qa : Nat) : Bool :=
  match st.categories.find? (fun cat => decide (cat.id = cid)) with
  | some cat => decide (cat.total_questions ≤ qa + 1)
  | none => false

/-- The ON DUPLICATE KEY UPDATE branch of the progress upsert
(src/server.js lines 503-517), with MySQL's left-to-right assignment
evaluation: the is_completed CASE reads the already-incremented
questions_answered. -/
def progressRowUpdate (st : DB) (cid : Nat) (c : Bool) (pe : Nat) (r : UserProgress) : UserProgress :=
  let qa := r.questions_answered + 1
  { r with questions_answered := qa,
           correct_answers := r.correct_answers + (if c then 1 else 0),
           points_earned := r.points_earned + pe,
           is_completed := completedAfterUpdate st cid qa }

/-- INSERT INTO user_progress ... ON DUPLICATE KEY UPDATE.  The INSERT
branch lists no is_completed column, so the row is created with the
column default FALSE. -/
def upsertProgress (st : DB) (uid cid : Nat) (c : Bool) (pe : Nat) : DB :=
  if st.user_progress.any (progKey uid cid) then
    { st with user_progress := st.user_progress.map (fun r =>
        if progKey uid cid r then progressRowUpdate st cid c pe r else r) }
  else
    { st with user_progress := st.user_progress ++ [⟨uid, cid, 1, if c then 1 else 0, pe, false⟩] }

/-- The (user_id, question_type_id) unique key of
user_question_type_performance. -/
def perfKey (uid tid : Nat) (p : TypePerformance) : Bool :=
  decide (p.user_id = uid ∧ p.question_type_id = tid)

/-- The ON DUPLICATE KEY UPDATE branch of the performance upsert
(src/server.js lines 520-532), with MySQL's left-to-right assignment
evaluation: total_attempts and correct_attempts referenced by the
success_rate and avg_time_taken expressions already hold their updated
values; avg_time_taken's reference to itself, being its own assignment,
still sees the old value. -/
def perfRowUpdate (c : Bool) (t : Rat) (p : TypePerformance) : TypePerformance :=
  let inc : Nat := if c then 1 else 0
  let ta := p.total_attempts + 1
  let ca := p.correct_attempts + inc
  { p with total_attempts := ta,
           correct_attempts := ca,
           success_rate := ((ca : Rat) + (inc : Rat)) / ((ta : Rat) + 1) * 100,
           avg_time_taken := (p.avg_time_taken * (ta : Rat) + t) / ((ta : Rat) + 1) }

/-- INSERT INTO user_question_type_performance ... ON DUPLICATE KEY
UPDATE.  The INSERT branch lists no success_rate column, so the row is
created with the column default 0.00. -/
def upsertPerf (st : DB) (uid tid : Nat) (c : Bool) (t : Rat) : DB :=
  if st.user_question_type_performance.any (perfKey uid tid) then
    { st with user_question_type_performance := st.user_question_type_performance.map (fun p =>
        if perfKey uid tid p then perfRowUpdate c t p else p) }
  else
    { st with user_question_type_performance :=
        st.user_question_type_performance ++ [⟨uid, tid, 1, if c then 1 else 0, 0, t⟩] }

/-- SELECT ... FROM users WHERE id = ?. -/
def findUser (st : DB) (uid : Nat) : Option User :=
  st.users.find? (userKey uid)

/-- SELECT ... FROM user_progress WHERE user_id = ? AND category_id = ?. -/
def findProgress (st : DB) (uid cid : Nat) : Option UserProgress :=
  st.user_progress.find? (progKey uid cid)

/-- SELECT ... FROM user_question_type_performance WHERE user_id = ? AND
question_type_id = ?. -/
def findPerf (st : DB) (uid tid : Nat) : Option TypePerformance :=
  st.user_question_type_performance.find? (perfKey uid tid)

/-- INSERT INTO user_badges. -/
def insertUserBadge (st : DB) (uid bid : Nat) : DB :=
  { st with user_badges := st.user_badges ++ [⟨uid, bid⟩] }

/-- The category_complete check of checkAndAwardBadges:
`progress.length > 0 && progress[0].is_completed`. -/
def progressCompleted (st : DB) (uid cid : Nat) : Bool :=
  match st.user_progress.find? (progKey uid cid) with
  | some r => r.is_completed
  | none => false

/-- SELECT COUNT(*) FROM question_attempts WHERE user_id = ?. -/
def attemptCountOf (st : DB) (uid : Nat) : Nat :=
  st.question_attempts.countP (fun a => decide (a.user_id = uid))

/-- The switch on badge.requirement_type of checkAndAwardBadges
(src/server.js lines 181-209).  `if (badge.category_id)` is JavaScript
truthiness: NULL and 0 are both falsy. -/
def shouldAward (st : DB) (u : User) (uid : Nat) (b : Badge) : Bool :=
  if b.requirement_type = "points" then decide (b.requirement_value ≤ u.total_points)
  else if b.requirement_type = "streak" then decide (b.requirement_value ≤ u.current_streak)
  else if b.requirement_type = "questions_answered" then
    decide (b.requirement_value ≤ attemptCountOf st uid)
  else if b.requirement_type = "category_complete" then
    match b.category_id with
    | some cid => if cid = 0 then false else progressCompleted st uid cid
    | none => false
  else false

/-- SELECT * FROM badges WHERE id NOT IN (SELECT badge_id FROM
user_badges WHERE user_id = ?). -/
def eligibleBadges (st : DB) (uid : Nat) : List Badge :=
  st.badges.filter (fun b =>
    ! st.user_badges.any (fun ub => decide (ub.user_id = uid ∧ ub.badge_id = b.id)))

/-- The badge loop of checkAndAwardBadges.  `fault = some k` injects a
store failure at the (k+1)-th badge insert; the surrounding catch block
then returns an empty list while the inserts already made stay (the
function runs outside any transaction). -/
def awardLoop (u : User) (uid : Nat) : Option Nat → List Badge → DB → List Badge → List Badge × DB
  | _, [], st, acc => (acc, st)
  | fault, b :: bs, st, acc =>
    if shouldAward st u uid b then
      match fault with
      | some 0 => ([], st)
      | some (k + 1) => awardLoop u uid (some k) bs (insertUserBadge st uid b.id) (acc ++ [b])
      | none => awardLoop u uid none bs (insertUserBadge st uid b.id) (acc ++ [b])
    else awardLoop u uid fault bs st acc

/-- Number of badge inserts the loop of checkAndAwardBadges performs
when no failure occurs, mirroring awardLoop's state threading. -/
def awardCount (u : User) (uid : Nat) : List Badge → DB → Nat
  | [], _ => 0
  | b :: bs, st =>
    if shouldAward st u uid b then awardCount u uid bs (insertUserBadge st uid b.id) + 1
    else awardCount u uid bs st

/-- checkAndAwardBadges (src/server.js lines 158-226): a missing user
returns an empty list; every error is caught and also returns an empty
list (modelled by the `fault` parameter at the insert points — the reads
of the embedding are pure and cannot fail). -/
def checkAndAwardBadges (fault : Option Nat) (st : DB) (uid : Nat) : List Badge × DB :=
  match findUser st uid with
  | none => ([], st)
  | some u => awardLoop u uid fault (eligibleBadges st uid) st []

/-- The response record of POST /api/answers. -/
structure SubmitResult where
  isCorrect : Bool
  pointsEarned : Nat
  explanation : String
  correctAnswer : String
  newBadges : List Badge
deriving DecidableEq

/-- SELECT option_text FROM answer_options WHERE question_id = ? AND
is_correct = 1, defaulted to the empty string. -/
def correctAnswerText (st : DB) (qid : Nat) : String :=
  match st.answer_options.find? (fun o => decide (o.question_id = qid ∧ o.is_correct = 1)) with
  | some o => o.option_text
  | none => ""

/-- The four mutation statements of the answer handler, in program
order: attempt insert, users update, progress upsert, performance
upsert.  The handler wraps them in no transaction. -/
def answerSteps (uid qid oid : Nat) (q : Question) (c : Bool) (pe : Nat) (t : Rat) (h : Bool) :
    List (DB → DB) :=
  [ fun s => insertAttempt s (mkAttempt uid qid q.question_type_id oid c t h),
    fun s => updateUsers s uid c pe,
    fun s => upsertProgress s uid q.category_id c pe,
    fun s => upsertPerf s uid q.question_type_id c t ]

/-- Run the first k steps of a statement list. -/
def applyFirst : Nat → List (DB → DB) → DB → DB
  | 0, _, s => s
  | _ + 1, [], s => s
  | k + 1, f :: fs, s => applyFirst k fs (f s)

/-- Observable store state of POST /api/answers when the (k+1)-th
mutation statement fails: the handler has no transaction and its catch
block only sends a 500 response, so the first k statements' effects
remain.  Validation failures leave the store untouched. -/
def submitAnswerFaulty (k : Nat) (st : DB) (uid qid oid : Nat) (t : Rat) (h : Bool) : DB :=
  match evaluateAnswer st qid oid with
  | .error _ => st
  | .ok (q, _, c, pe) => applyFirst k (answerSteps uid qid oid q c pe t h) st

/-- POST /api/answers (src/server.js lines 435-559): validation and
scoring, the four mutation statements, badge check, response assembly.
`fault` is passed to the badge check (see checkAndAwardBadges). -/
def submitAnswer (fault : Option Nat) (st : DB) (uid qid oid : Nat) (t : Rat) (h : Bool) :
    Except String SubmitResult × DB :=
  match evaluateAnswer st qid oid with
  | .error e => (.error e, st)
  | .ok (q, _, c, pe) =>
    let st4 := applyFirst 4 (answerSteps uid qid oid q c pe t h) st
    let p := checkAndAwardBadges fault st4 uid
    (.ok { isCorrect := c, pointsEarned := pe,
           explanation := if q.explanation = "" then "Great job!" else q.explanation,
           correctAnswer := correctAnswerText p.2 qid,
           newBadges := p.1 }, p.2)

/-- Run a list of submissions (questionId, answerId, timeTaken,
hintUsed) for one user; a 400 response leaves the store unchanged. -/
def runSubmissions (uid : Nat) : DB → List (Nat × Nat × Rat × Bool) → DB
  | st, [] => st
  | st, s :: rest =>
    runSubmissions uid (submitAnswer none st uid s.1 s.2.1 s.2.2.1 s.2.2.2).2 rest

/-- The DELETE ... JOIN questions condition of the reset handler: the
attempt joins some question row of the category. -/
def questionInCategory (st : DB) (qid cid : Nat) : Bool :=
  st.questions.any (fun q => decide (q.id = qid ∧ q.category_id = cid))

/-- The COUNT(*) subquery of the reset handler's performance update:
attempts of the user of the given type, joined with the questions of the
category (each matching join row counted). -/
def categoryAttemptJoinCount (st : DB) (uid cid tid : Nat) : Nat :=
  (st.question_attempts.map (fun a =>
    if a.user_id = uid ∧ a.question_type_id = tid then
      (st.questions.filter (fun q => decide (q.id = a.question_id ∧ q.category_id = cid))).length
    else 0)).sum

/-- Same as categoryAttemptJoinCount restricted to correct attempts. -/
def categoryCorrectJoinCount (st : DB) (uid cid tid : Nat) : Nat :=
  (st.question_attempts.map (fun a =>
    if a.user_id = uid ∧ a.question_type_id = tid ∧ a.is_correct = true then
      (st.questions.filter (fun q => decide (q.id = a.question_id ∧ q.category_id = cid))).length
    else 0)).sum

/-- SELECT COALESCE(SUM(points_earned), 0) FROM user_progress WHERE
user_id = ?. -/
def remainingPoints (st : DB) (uid : Nat) : Nat :=
  ((st.user_progress.filter (fun r => decide (r.user_id = uid))).map
    (fun r => r.points_earned)).sum

/-- First statement of the reset transaction: DELETE qa FROM
question_attempts qa JOIN questions q ON qa.question_id = q.id WHERE
qa.user_id = ? AND q.category_id = ?. -/
def resetStep1 (st : DB) (uid cid : Nat) : DB :=
  { st with question_attempts := st.question_attempts.filter (fun a =>
      ! (decide (a.user_id = uid) && questionInCategory st a.question_id cid)) }

/-- Second statement of the reset transaction: DELETE FROM user_progress
WHERE user_id = ? AND category_id = ?. -/
def resetStep2 (st : DB) (uid cid : Nat) : DB :=
  let s := resetStep1 st uid cid
  { s with user_progress := s.user_progress.filter (fun r => ! progKey uid cid r) }

/-- Third statement of the reset transaction: the multi-table UPDATE on
user_question_type_performance.  A row of the user is updated when some
question of its type exists (the JOIN), and its counters are decremented
by the count subqueries of the statement — which run against the state
left by the two DELETEs and therefore count the already-deleted
attempts.  GREATEST(0, x - y) is Nat truncated subtraction. -/
def resetStep3 (st : DB) (uid cid : Nat) : DB :=
  let s := resetStep2 st uid cid
  { s with user_question_type_performance :=
      s.user_question_type_performance.map (fun (p : TypePerformance) =>
        if p.user_id = uid ∧
            s.questions.any (fun q => decide (q.question_type_id = p.question_type_id)) then
          { p with total_attempts :=
                     p.total_attempts - categoryAttemptJoinCount s uid cid p.question_type_id,
                   correct_attempts :=
                     p.correct_attempts - categoryCorrectJoinCount s uid cid p.question_type_id }
        else p) }

/-- POST /api/reset-progress transaction body (src/server.js lines
576-624): the three statements above followed by the recomputation of
the user's total_points as the sum of points_earned over the remaining
user_progress rows; current_streak and best_streak are not assigned. -/
def resetCategoryProgress (st : DB) (uid cid : Nat) : DB :=
  let s := resetStep3 st uid cid
  { s with users := s.users.map (fun u =>
      if userKey uid u then { u with total_points := remainingPoints s uid } else u) }

/-- A one-user, one-category, one-question store with no history;
`total` is the category's total_questions. -/
def stFresh (total : Nat) : DB :=
  { users := [⟨1, 0, 0, 0⟩],
    categories := [⟨1, total⟩],
    question_types := [⟨1, "multiple_choice", "easy"⟩],
    questions := [⟨1, 1, 1, 15, true, "exp"⟩],
    answer_options := [⟨1, 1, "Yes", 1⟩],
    question_attempts := [],
    user_progress := [],
    user_question_type_performance := [],
    badges := [],
    user_badges := [] }

/-- stFresh 5 after user 1 attempted the only question. -/
def stAllAttempted : DB :=
  { stFresh 5 with question_attempts := [⟨1, 1, 1, 1, true, 10, false⟩] }

/-- Two questions of the same category; option 2 belongs to question 2. -/
def stTwoQuestions : DB :=
  { stFresh 5 with
      questions := [⟨1, 1, 1, 10, true, "e1"⟩, ⟨2, 1, 1, 10, true, "e2"⟩],
      answer_options := [⟨1, 1, "A", 1⟩, ⟨2, 2, "B", 1⟩] }

/-- User 1 struggles with type 1 (3 attempts, 0 % success); type 2 is an
easy true_false type with an unattempted active question in category 1. -/
def stStruggling : DB :=
  { users := [⟨1, 0, 0, 0⟩],
    categories := [⟨1, 5⟩],
    question_types := [⟨1, "multiple_choice", "easy"⟩, ⟨2, "true_false", "easy"⟩],
    questions := [⟨1, 1, 2, 15, true, "exp"⟩],
    answer_options := [⟨1, 1, "True", 1⟩],
    question_attempts := [],
    user_progress := [],
    user_question_type_performance := [⟨1, 1, 3, 0, 0, 10⟩],
    badges := [],
    user_badges := [] }

/-- A store where user 1 has one correct attempt in category 1 on a
question of type 1, with the matching progress and performance rows. -/
def stReset : DB :=
  { users := [⟨1, 15, 1, 1⟩],
    categories := [⟨1, 5⟩],
    question_types := [⟨1, "multiple_choice", "easy"⟩],
    questions := [⟨1, 1, 1, 15, true, "exp"⟩],
    answer_options := [⟨1, 1, "Yes", 1⟩],
    question_attempts := [⟨1, 1, 1, 1, true, 10, false⟩],
    user_progress := [⟨1, 1, 1, 1, 15, false⟩],
    user_question_type_performance := [⟨1, 1, 1, 1, 100, 10⟩],
    badges := [],
    user_badges := [] }

/-- A store with no user row for id 1. -/
def stNoUser : DB := { stFresh 5 with users := [] }

/-- A store whose user qualifies for one unawarded points badge. -/
def stOneBadge : DB :=
  { stFresh 5 with
      users := [⟨1, 100, 5, 5⟩],
      badges := [⟨1, "points", 50, none⟩] }

/-! ### Generic helper lemmas -/

theorem pick_mem {l : List α} {r : Nat} {x : α} (hp : pick r l = some x) : x ∈ l := by
  cases l with
  | nil => simp [pick] at hp
  | cons a as => exact List.get?_mem hp

theorem pick_of_ne_nil {l : List α} (hl : l ≠ []) (r : Nat) :
    ∃ x, pick r l = some x ∧ x ∈ l := by
  cases l with
  | nil => exact absurd rfl hl
  | cons a as =>
    have hlen : r % (a :: as).length < (a :: as).length := Nat.mod_lt _ (by simp)
    exact ⟨(a :: as).get ⟨r % (a :: as).length, hlen⟩,
      by simp [pick, List.get?_eq_get hlen], List.get_mem _ _ _⟩

theorem any_eq_false_of_find?_eq_none {p : α → Bool} {l : List α}
    (hf : l.find? p = none) : l.any p = false := by
  rw [Bool.eq_false_iff]
  intro hany
  obtain ⟨x, hx, hpx⟩ := List.any_eq_true.mp hany
  exact (List.find?_eq_none.mp hf x hx) hpx

theorem any_eq_true_of_find?_eq_some {p : α → Bool} {l : List α} {x : α}
    (hf : l.find? p = some x) : l.any p = true :=
  List.any_eq_true.mpr ⟨x, List.mem_of_find?_eq_some hf, List.find?_some hf⟩

theorem find?_append_none {p : α → Bool} {l₁ : List α} (l₂ : List α)
    (hf : l₁.find? p = none) : (l₁ ++ l₂).find? p = l₂.find? p := by
  rw [List.find?_append, hf, Option.none_or]

theorem find?_map_update {p : α → Bool} {g : α → α}
    (hg : ∀ x, p x = true → p (g x) = true) :
    ∀ l : List α, (l.map (fun x => if p x then g x else x)).find? p = (l.find? p).map g := by
  intro l
  induction l with
  | nil => rfl
  | cons a as ih =>
    cases hpa : p a with
    | true =>
      rw [List.map_cons, if_pos hpa, List.find?_cons_of_pos _ (hg a hpa),
          List.find?_cons_of_pos _ hpa, Option.map_some']
    | false =>
      rw [List.map_cons, if_neg (by simp [hpa]), List.find?_cons_of_neg _ (by simp [hpa]),
          List.find?_cons_of_neg _ (by simp [hpa]), ih]

theorem map_id_of_eq {l : List α} {f : α → α} (hf : ∀ x ∈ l, f x = x) : l.map f = l := by
  induction l with
  | nil => rfl
  | cons a as ih =>
    rw [List.map_cons, hf a (List.mem_cons_self a as),
        ih (fun x hx => hf x (List.mem_cons_of_mem a hx))]

/-! ### Pipeline helper lemmas -/

theorem upsertProgress_users (st : DB) (uid cid : Nat) (c : Bool) (pe : Nat) :
    (upsertProgress st uid cid c pe).users = st.users := by
  unfold upsertProgress; split <;> rfl

theorem upsertProgress_perf (st : DB) (uid cid : Nat) (c : Bool) (pe : Nat) :
    (upsertProgress st uid cid c pe).user_question_type_performance =
      st.user_question_type_performance := by
  unfold upsertProgress; split <;> rfl

theorem upsertProgress_attempts (st : DB) (uid cid : Nat) (c : Bool) (pe : Nat) :
    (upsertProgress st uid cid c pe).question_attempts = st.question_attempts := by
  unfold upsertProgress; split <;> rfl

theorem upsertPerf_users (st : DB) (uid tid : Nat) (c : Bool) (t : Rat) :
    (upsertPerf st uid tid c t).users = st.users := by
  unfold upsertPerf; split <;> rfl

theorem upsertPerf_progress (st : DB) (uid tid : Nat) (c : Bool) (t : Rat) :
    (upsertPerf st uid tid c t).user_progress = st.user_progress := by
  unfold upsertPerf; split <;> rfl

theorem upsertPerf_attempts (st : DB) (uid tid : Nat) (c : Bool) (t : Rat) :
    (upsertPerf st uid tid c t).question_attempts = st.question_attempts := by
  unfold upsertPerf; split <;> rfl

theorem awardLoop_preserves (u : User) (uid : Nat) :
    ∀ (bs : List Badge) (fault : Option Nat) (st : DB) (acc : List Badge),
      (awardLoop u uid fault bs st acc).2.users = st.users ∧
      (awardLoop u uid fault bs st acc).2.user_progress = st.user_progress ∧
      (awardLoop u uid fault bs st acc).2.user_question_type_performance =
        st.user_question_type_performance ∧
      (awardLoop u uid fault bs st acc).2.question_attempts = st.question_attempts := by
  intro bs
  induction bs with
  | nil => intro fault st acc; exact ⟨rfl, rfl, rfl, rfl⟩
  | cons b bs ih =>
    intro fault st acc
    unfold awardLoop
    by_cases hsa : shouldAward st u uid b = true
    · rw [if_pos hsa]
      cases fault with
      | none => exact ih none (insertUserBadge st uid b.id) (acc ++ [b])
      | some k =>
        cases k with
        | zero => exact ⟨rfl, rfl, rfl, rfl⟩
        | succ k => exact ih (some k) (insertUserBadge st uid b.id) (acc ++ [b])
    · rw [if_neg hsa]; exact ih fault st acc

theorem checkBadges_preserves (fault : Option Nat) (st : DB) (uid : Nat) :
    (checkAndAwardBadges fault st uid).2.users = st.users ∧
    (checkAndAwardBadges fault st uid).2.user_progress = st.user_progress ∧
    (checkAndAwardBadges fault st uid).2.user_question_type_performance =
      st.user_question_type_performance ∧
    (checkAndAwardBadges fault st uid).2.question_attempts = st.question_attempts := by
  unfold checkAndAwardBadges
  cases hu : findUser st uid with
  | none => exact ⟨rfl, rfl, rfl, rfl⟩
  | some u => exact awardLoop_preserves u uid (eligibleBadges st uid) fault st []

theorem submit_state (fault : Option Nat) (st : DB) (uid qid oid : Nat) (t : Rat) (h : Bool)
    (q : Question) (o : AnswerOption) (c : Bool) (pe : Nat)
    (heval : evaluateAnswer st qid oid = .ok (q, o, c, pe)) :
    (submitAnswer fault st uid qid oid t h).2 =
      (checkAndAwardBadges fault
        (upsertPerf
          (upsertProgress
            (updateUsers (insertAttempt st (mkAttempt uid qid q.question_type_id oid c t h))
              uid c pe)
            uid q.category_id c pe)
          uid q.question_type_id c t)
        uid).2 := by
  unfold submitAnswer
  rw [heval]
  rfl

theorem submit_result (fault : Option Nat) (st : DB) (uid qid oid : Nat) (t : Rat) (h : Bool)
    (q : Question) (o : AnswerOption) (c : Bool) (pe : Nat)
    (heval : evaluateAnswer st qid oid = .ok (q, o, c, pe)) :
    (submitAnswer fault st uid qid oid t h).1 = .ok
      { isCorrect := c, pointsEarned := pe,
        explanation := if q.explanation = "" then "Great job!" else q.explanation,
        correctAnswer := correctAnswerText
          (checkAndAwardBadges fault
            (applyFirst 4 (answerSteps uid qid oid q c pe t h) st) uid).2 qid,
        newBadges := (checkAndAwardBadges fault
          (applyFirst 4 (answerSteps uid qid oid q c pe t h) st) uid).1 } := by
  unfold submitAnswer
  rw [heval]

theorem upsertProgress_find_none (st : DB) (uid cid : Nat) (c : Bool) (pe : Nat)
    (hn : findProgress st uid cid = none) :
    (upsertProgress st uid cid c pe).user_progress.find? (progKey uid cid) =
      some ⟨uid, cid, 1, if c then 1 else 0, pe, false⟩ := by
  unfold findProgress at hn
  have hany : st.user_progress.any (progKey uid cid) = false :=
    any_eq_false_of_find?_eq_none hn
  unfold upsertProgress
  rw [if_neg (by simp [hany]), find?_append_none _ hn,
      List.find?_cons_of_pos _ (by simp [progKey])]

theorem upsertProgress_find_some (st : DB) (uid cid : Nat) (c : Bool) (pe : Nat)
    (r : UserProgress) (hs : findProgress st uid cid = some r) :
    (upsertProgress st uid cid c pe).user_progress.find? (progKey uid cid) =
      some (progressRowUpdate st cid c pe r) := by
  unfold findProgress at hs
  have hany : st.user_progress.any (progKey uid cid) = true :=
    any_eq_true_of_find?_eq_some hs
  unfold upsertProgress
  rw [if_pos hany, @find?_map_update _ (progKey uid cid) (progressRowUpdate st cid c pe)
    (fun x hx => hx) st.user_progress, hs]
  rfl

theorem upsertPerf_find_none (st : DB) (uid tid : Nat) (c : Bool) (t : Rat)
    (hn : findPerf st uid tid = none) :
    (upsertPerf st uid tid c t).user_question_type_performance.find? (perfKey uid tid) =
      some ⟨uid, tid, 1, if c then 1 else 0, 0, t⟩ := by
  unfold findPerf at hn
  have hany : st.user_question_type_performance.any (perfKey uid tid) = false :=
    any_eq_false_of_find?_eq_none hn
  unfold upsertPerf
  rw [if_neg (by simp [hany]), find?_append_none _ hn,
      List.find?_cons_of_pos _ (by simp [perfKey])]

theorem upsertPerf_find_some (st : DB) (uid tid : Nat) (c : Bool) (t : Rat)
    (p : TypePerformance) (hs : findPerf st uid tid = some p) :
    (upsertPerf st uid tid c t).user_question_type_performance.find? (perfKey uid tid) =
      some (perfRowUpdate c t p) := by
  unfold findPerf at hs
  have hany : st.user_question_type_performance.any (perfKey uid tid) = true :=
    any_eq_true_of_find?_eq_some hs
  unfold upsertPerf
  rw [if_pos hany, @find?_map_update _ (perfKey uid tid) (perfRowUpdate c t)
    (fun x hx => hx) st.user_question_type_performance, hs]
  rfl

theorem updateUsers_find (st : DB) (uid : Nat) (c : Bool) (pe : Nat) (u : User)
    (hu : findUser st uid = some u) :
    (updateUsers st uid c pe).users.find? (userKey uid) = some (userAfterAnswer c pe u) := by
  unfold findUser at hu
  unfold updateUsers
  rw [find?_map_update (fun x hx => by cases c <;> exact hx) st.users, hu]
  rfl

theorem submit_attempts_field (fault : Option Nat) (st : DB) (uid qid oid : Nat)
    (t : Rat) (h : Bool) (q : Question) (o : AnswerOption) (c : Bool) (pe : Nat)
    (heval : evaluateAnswer st qid oid = .ok (q, o, c, pe)) :
    (submitAnswer fault st uid qid oid t h).2.question_attempts =
      st.question_attempts ++ [mkAttempt uid qid q.question_type_id oid c t h] := by
  rw [submit_state fault st uid qid oid t h q o c pe heval,
      (checkBadges_preserves _ _ _).2.2.2, upsertPerf_attempts, upsertProgress_attempts]
  rfl

theorem submit_users_field (fault : Option Nat) (st : DB) (uid qid oid : Nat)
    (t : Rat) (h : Bool) (q : Question) (o : AnswerOption) (c : Bool) (pe : Nat)
    (heval : evaluateAnswer st qid oid = .ok (q, o, c, pe)) :
    (submitAnswer fault st uid qid oid t h).2.users =
      (updateUsers (insertAttempt st (mkAttempt uid qid q.question_type_id oid c t h))
        uid c pe).users := by
  rw [submit_state fault st uid qid oid t h q o c pe heval,
      (checkBadges_preserves _ _ _).1, upsertPerf_users, upsertProgress_users]

theorem submit_progress_field (fault : Option Nat) (st : DB) (uid qid oid : Nat)
    (t : Rat) (h : Bool) (q : Question) (o : AnswerOption) (c : Bool) (pe : Nat)
    (heval : evaluateAnswer st qid oid = .ok (q, o, c, pe)) :
    (submitAnswer fault st uid qid oid t h).2.user_progress =
      (upsertProgress
        (updateUsers (insertAttempt st (mkAttempt uid qid q.question_type_id oid c t h))
          uid c pe)
        uid q.category_id c pe).user_progress := by
  rw [submit_state fault st uid qid oid t h q o c pe heval,
      (checkBadges_preserves _ _ _).2.1, upsertPerf_progress]

theorem submit_perf_field (fault : Option Nat) (st : DB) (uid qid oid : Nat)
    (t : Rat) (h : Bool) (q : Question) (o : AnswerOption) (c : Bool) (pe : Nat)
    (heval : evaluateAnswer st qid oid = .ok (q, o, c, pe)) :
    (submitAnswer fault st uid qid oid t h).2.user_question_type_performance =
      (upsertPerf
        (upsertProgress
          (updateUsers (insertAttempt st (mkAttempt uid qid q.question_type_id oid c t h))
            uid c pe)
          uid q.category_id c pe)
        uid q.question_type_id c t).user_question_type_performance := by
  rw [submit_state fault st uid qid oid t h q o c pe heval,
      (checkBadges_preserves _ _ _).2.2.1]

theorem awardLoop_none_length (u : User) (uid : Nat) :
    ∀ (bs : List Badge) (st : DB) (acc : List Badge),
      (awardLoop u uid none bs st acc).1.length = acc.length + awardCount u uid bs st := by
  intro bs
  induction bs with
  | nil => intro st acc; simp [awardLoop, awardCount]
  | cons b bs ih =>
    intro st acc
    unfold awardLoop awardCount
    by_cases hsa : shouldAward st u uid b = true
    · rw [if_pos hsa, if_pos hsa, ih (insertUserBadge st uid b.id) (acc ++ [b])]
      simp [Nat.add_assoc, Nat.add_comm 1]
    · rw [if_neg hsa, if_neg hsa, ih st acc]

theorem awardLoop_fault_nil (u : User) (uid : Nat) :
    ∀ (bs : List Badge) (st : DB) (acc : List Badge) (k : Nat),
      k < awardCount u uid bs st → (awardLoop u uid (some k) bs st acc).1 = [] := by
  intro bs
  induction bs with
  | nil => intro st acc k hk; simp [awardCount] at hk
  | cons b bs ih =>
    intro st acc k hk
    unfold awardCount at hk
    unfold awardLoop
    by_cases hsa : shouldAward st u uid b = true
    · rw [if_pos hsa]
      rw [if_pos hsa] at hk
      cases k with
      | zero => rfl
      | succ k =>
        exact ih (insertUserBadge st uid b.id) (acc ++ [b]) k (Nat.lt_of_succ_lt_succ hk)
    · rw [if_neg hsa]
      rw [if_neg hsa] at hk
      exact ih st acc k hk

theorem attemptedBy_false_spec {st : DB} {uid qid : Nat}
    (hf : attemptedBy st uid qid = false) :
    ∀ a ∈ st.question_attempts, ¬(a.user_id = uid ∧ a.question_id = qid) := by
  intro a ha hcond
  have hany : st.question_attempts.any
      (fun a => decide (a.user_id = uid ∧ a.question_id = qid)) = true :=
    List.any_eq_true.mpr ⟨a, ha, by simpa using hcond⟩
  unfold attemptedBy at hf
  rw [hf] at hany
  exact Bool.false_ne_true hany

theorem attemptedBy_true_of {st : DB} {uid qid : Nat} {a : QuestionAttempt}
    (ha : a ∈ st.question_attempts) (hu : a.user_id = uid) (hq : a.question_id = qid) :
    attemptedBy st uid qid = true :=
  List.any_eq_true.mpr ⟨a, ha, by simp [hu, hq]⟩

/-! ### Claim theorems -/

/-- C1: for every user, category and random draw, the adaptive question
selector never returns a question the user has already attempted (any
attempt row counts, also an incorrect one), and when every active
question of the category has been attempted it returns none. -/
theorem selector_never_returns_attempted (st : DB) (uid cid r1 r2 r3 : Nat) :
    (∀ q, getAdaptiveQuestion st uid cid r1 r2 r3 = some q →
      ∀ a ∈ st.question_attempts, a.user_id = uid → a.question_id ≠ q.id)
    ∧ ((∀ q ∈ st.questions, q.category_id = cid → q.is_active = true →
        ∃ a ∈ st.question_attempts, a.user_id = uid ∧ a.question_id = q.id) →
      getAdaptiveQuestion st uid cid r1 r2 r3 = none) := by
  constructor
  · intro q hq a ha hau hqid
    have hmem : q ∈ typedCandidates st uid cid (targetTypeId st uid r1) ∨
        q ∈ anyCandidates st uid cid := by
      unfold getAdaptiveQuestion at hq
      cases hp2 : pick r2 (typedCandidates st uid cid (targetTypeId st uid r1)) with
      | some q0 =>
        rw [hp2] at hq
        have hq' : some q0 = some q := hq
        exact Or.inl (Option.some.inj hq' ▸ pick_mem hp2)
      | none =>
        rw [hp2] at hq
        have hq' : pick r3 (anyCandidates st uid cid) = some q := hq
        exact Or.inr (pick_mem hq')
    have hatt : attemptedBy st uid q.id = false := by
      cases hmem with
      | inl hm =>
        have hpred := (List.mem_filter.mp hm).2
        simp only [Bool.and_eq_true, Bool.not_eq_true'] at hpred
        exact hpred.2
      | inr hm =>
        have hpred := (List.mem_filter.mp hm).2
        simp only [Bool.and_eq_true, Bool.not_eq_true'] at hpred
        exact hpred.2
    exact attemptedBy_false_spec hatt a ha ⟨hau, hqid⟩
  · intro hall
    have h1 : typedCandidates st uid cid (targetTypeId st uid r1) = [] := by
      rw [typedCandidates, List.filter_eq_nil_iff]
      intro q hqmem hpred
      simp only [Bool.and_eq_true, Bool.not_eq_true', decide_eq_true_eq] at hpred
      obtain ⟨a, ha, hau, haq⟩ := hall q hqmem hpred.1.1.1.1 hpred.1.1.2
      rw [attemptedBy_true_of ha hau haq] at hpred
      exact Bool.noConfusion hpred.2
    have h2 : anyCandidates st uid cid = [] := by
      rw [anyCandidates, List.filter_eq_nil_iff]
      intro q hqmem hpred
      simp only [Bool.and_eq_true, Bool.not_eq_true', decide_eq_true_eq] at hpred
      obtain ⟨a, ha, hau, haq⟩ := hall q hqmem hpred.1.1.1 hpred.1.1.2
      rw [attemptedBy_true_of ha hau haq] at hpred
      exact Bool.noConfusion hpred.2
    unfold getAdaptiveQuestion
    rw [h1, h2]
    rfl

/-- Witness for C1 at a concrete store where the only active question of
the category has been attempted: the selector returns none. -/
theorem selector_never_returns_attempted_witness :
    getAdaptiveQuestion stAllAttempted 1 1 0 0 0 = none :=
  (selector_never_returns_attempted stAllAttempted 1 1 0 0 0).2 (by decide)

/-- C7: whenever some question type is struggling for the user
(success_rate below 60 and at least 3 attempts), the selector retargets
to one of the types whose difficulty is easy and whose name is
visual_choice or true_false (whichever one the random draw picks); if no
such easier type exists the default target is kept; and when the chosen
easier type has unattempted active questions in the category, the
returned question is of that easier type. -/
theorem selector_struggling_retarget (st : DB) (uid cid r1 r2 r3 : Nat)
    (hstrug : ∃ p ∈ perfRows st uid, p.success_rate < 60 ∧ 3 ≤ p.total_attempts) :
    (easierTypes st ≠ [] →
      ∃ tqt, tqt ∈ easierTypes st ∧
        tqt.difficulty_level = "easy" ∧
        (tqt.type_name = "visual_choice" ∨ tqt.type_name = "true_false") ∧
        targetTypeId st uid r1 = tqt.id ∧
        (typedCandidates st uid cid tqt.id ≠ [] →
          ∃ q, getAdaptiveQuestion st uid cid r1 r2 r3 = some q ∧
            q.question_type_id = tqt.id))
    ∧ (easierTypes st = [] → targetTypeId st uid r1 = defaultTargetTypeId st uid) := by
  have hfound : ∃ s, strugglingFound st uid = some s := by
    obtain ⟨p, hp, h1, h2⟩ := hstrug
    cases hf : strugglingFound st uid with
    | some s => exact ⟨s, rfl⟩
    | none =>
      unfold strugglingFound at hf
      exact absurd
        (by simp [h1, h2] : decide (p.success_rate < 60 ∧ 3 ≤ p.total_attempts) = true)
        (List.find?_eq_none.mp hf p hp)
  obtain ⟨s, hs⟩ := hfound
  constructor
  · intro hne
    obtain ⟨tqt, hpick, htmem⟩ := pick_of_ne_nil hne r1
    have hprops := (List.mem_filter.mp htmem).2
    simp only [decide_eq_true_eq] at hprops
    have htid : targetTypeId st uid r1 = tqt.id := by
      unfold targetTypeId
      rw [hs, hpick]
    refine ⟨tqt, htmem, hprops.1, hprops.2, htid, ?_⟩
    intro hcand
    obtain ⟨q, hq2, hqmem⟩ := pick_of_ne_nil hcand r2
    have hqpred := (List.mem_filter.mp hqmem).2
    simp only [Bool.and_eq_true, decide_eq_true_eq] at hqpred
    refine ⟨q, ?_, hqpred.1.1.1.2⟩
    unfold getAdaptiveQuestion
    rw [htid, hq2]
  · intro hnil
    unfold targetTypeId
    rw [hs, hnil]
    rfl

/-- Witness for C7 at a concrete store: user 1 is struggling with type 1
and the easy true_false type 2 has an unattempted active question. -/
theorem selector_struggling_retarget_witness :
    ∃ tqt, tqt ∈ easierTypes stStruggling ∧
      tqt.difficulty_level = "easy" ∧
      (tqt.type_name = "visual_choice" ∨ tqt.type_name = "true_false") ∧
      targetTypeId stStruggling 1 0 = tqt.id ∧
      (typedCandidates stStruggling 1 1 tqt.id ≠ [] →
        ∃ q, getAdaptiveQuestion stStruggling 1 1 0 0 0 = some q ∧
          q.question_type_id = tqt.id) :=
  (selector_struggling_retarget stStruggling 1 1 0 0 0 (by decide)).1 (by decide)

theorem submit_findProgress_none (fault : Option Nat) (st : DB) (uid qid oid : Nat)
    (t : Rat) (h : Bool) (q : Question) (o : AnswerOption) (c : Bool) (pe : Nat)
    (heval : evaluateAnswer st qid oid = .ok (q, o, c, pe))
    (hn : findProgress st uid q.category_id = none) :
    findProgress (submitAnswer fault st uid qid oid t h).2 uid q.category_id =
      some ⟨uid, q.category_id, 1, if c then 1 else 0, pe, false⟩ := by
  unfold findProgress
  rw [submit_progress_field fault st uid qid oid t h q o c pe heval]
  apply upsertProgress_find_none
  exact hn

theorem submit_findProgress_some (fault : Option Nat) (st : DB) (uid qid oid : Nat)
    (t : Rat) (h : Bool) (q : Question) (o : AnswerOption) (c : Bool) (pe : Nat)
    (heval : evaluateAnswer st qid oid = .ok (q, o, c, pe))
    (r : UserProgress) (hr : findProgress st uid q.category_id = some r) :
    findProgress (submitAnswer fault st uid qid oid t h).2 uid q.category_id =
      some (progressRowUpdate st q.category_id c pe r) := by
  unfold findProgress
  rw [submit_progress_field fault st uid qid oid t h q o c pe heval]
  exact upsertProgress_find_some _ uid q.category_id c pe r hr

theorem submit_findPerf_none (fault : Option Nat) (st : DB) (uid qid oid : Nat)
    (t : Rat) (h : Bool) (q : Question) (o : AnswerOption) (c : Bool) (pe : Nat)
    (heval : evaluateAnswer st qid oid = .ok (q, o, c, pe))
    (hn : findPerf st uid q.question_type_id = none) :
    findPerf (submitAnswer fault st uid qid oid t h).2 uid q.question_type_id =
      some ⟨uid, q.question_type_id, 1, if c then 1 else 0, 0, t⟩ := by
  unfold findPerf
  rw [submit_perf_field fault st uid qid oid t h q o c pe heval]
  apply upsertPerf_find_none
  unfold findPerf
  rw [upsertProgress_perf]
  exact hn

theorem submit_findPerf_some (fault : Option Nat) (st : DB) (uid qid oid : Nat)
    (t : Rat) (h : Bool) (q : Question) (o : AnswerOption) (c : Bool) (pe : Nat)
    (heval : evaluateAnswer st qid oid = .ok (q, o, c, pe))
    (p : TypePerformance) (hp : findPerf st uid q.question_type_id = some p) :
    findPerf (submitAnswer fault st uid qid oid t h).2 uid q.question_type_id =
      some (perfRowUpdate c t p) := by
  unfold findPerf
  rw [submit_perf_field fault st uid qid oid t h q o c pe heval]
  apply upsertPerf_find_some
  unfold findPerf
  rw [upsertProgress_perf]
  exact hp

theorem submit_findUser (fault : Option Nat) (st : DB) (uid qid oid : Nat)
    (t : Rat) (h : Bool) (q : Question) (o : AnswerOption) (c : Bool) (pe : Nat) (u : User)
    (heval : evaluateAnswer st qid oid = .ok (q, o, c, pe))
    (hu : findUser st uid = some u) :
    findUser (submitAnswer fault st uid qid oid t h).2 uid = some (userAfterAnswer c pe u) := by
  unfold findUser
  rw [submit_users_field fault st uid qid oid t h q o c pe heval]
  exact updateUsers_find _ uid c pe u hu

/-- C2 counterexample: injecting a failure right after the attempt
insert (the first of the four mutation statements) leaves the inserted
attempt row observable while the user row is unchanged — a partial
update, refuting all-or-nothing atomicity. -/
theorem submit_not_atomic_counterexample :
    (submitAnswerFaulty 1 (stFresh 5) 1 1 1 10 false).question_attempts =
      [⟨1, 1, 1, 1, true, 10, false⟩] ∧
    (stFresh 5).question_attempts = [] ∧
    (submitAnswerFaulty 1 (stFresh 5) 1 1 1 10 false).users = (stFresh 5).users := by
  decide

/-- C2 amended: the answer handler runs its four mutation statements
without a transaction, so a failure between statements keeps the effects
of the statements already executed; after a failure following the
attempt insert, the attempt row is recorded and every other table is
unchanged. -/
theorem submit_failure_keeps_prior_effects
    (st : DB) (uid qid oid : Nat) (t : Rat) (h : Bool)
    (q : Question) (o : AnswerOption) (c : Bool) (pe : Nat)
    (heval : evaluateAnswer st qid oid = .ok (q, o, c, pe)) :
    (submitAnswerFaulty 1 st uid qid oid t h).question_attempts =
      st.question_attempts ++ [mkAttempt uid qid q.question_type_id oid c t h] ∧
    (submitAnswerFaulty 1 st uid qid oid t h).users = st.users ∧
    (submitAnswerFaulty 1 st uid qid oid t h).user_progress = st.user_progress ∧
    (submitAnswerFaulty 1 st uid qid oid t h).user_question_type_performance =
      st.user_question_type_performance ∧
    (submitAnswerFaulty 1 st uid qid oid t h).user_badges = st.user_badges := by
  unfold submitAnswerFaulty
  rw [heval]
  exact ⟨rfl, rfl, rfl, rfl, rfl⟩

/-- Witness for the amended C2 statement at a concrete store. -/
theorem submit_failure_keeps_prior_effects_witness :
    (submitAnswerFaulty 1 (stFresh 5) 1 1 1 10 false).question_attempts =
      (stFresh 5).question_attempts ++ [mkAttempt 1 1 1 1 true 10 false] :=
  (submit_failure_keeps_prior_effects (stFresh 5) 1 1 1 10 false
    ⟨1, 1, 1, 15, true, "exp"⟩ ⟨1, 1, "Yes", 1⟩ true 15 rfl).1

/-- C3 counterexample: a category with total_questions = 1.  The first
(correct) submission creates the progress row with questions_answered = 1
≥ total_questions, yet is_completed is false, because the INSERT branch
of the upsert never sets is_completed. -/
theorem completion_flag_counterexample :
    (stFresh 1).categories = [⟨1, 1⟩] ∧
    ¬ (∀ r ∈ (submitAnswer none (stFresh 1) 1 1 1 10 false).2.user_progress,
        (r.is_completed = true ↔ 1 ≤ r.questions_answered)) := by
  decide

/-- C3 amended: on the first attempt in a category the progress row is
created with is_completed = false regardless of total_questions; on a
later attempt the upsert sets is_completed to (questions_answered + 1 ≥
total_questions) where questions_answered is the already-incremented
value (MySQL evaluates the upsert assignments left to right), so
completion is flagged one submission before questions_answered reaches
total_questions; once true it stays true (provided the category row
exists and the flag satisfied the same rule before). -/
theorem completion_flag_characterization
    (fault : Option Nat) (st : DB) (uid qid oid : Nat) (t : Rat) (h : Bool)
    (q : Question) (o : AnswerOption) (c : Bool) (pe : Nat)
    (heval : evaluateAnswer st qid oid = .ok (q, o, c, pe)) :
    (findProgress st uid q.category_id = none →
      findProgress (submitAnswer fault st uid qid oid t h).2 uid q.category_id =
        some ⟨uid, q.category_id, 1, if c then 1 else 0, pe, false⟩)
    ∧ (∀ r, findProgress st uid q.category_id = some r →
      findProgress (submitAnswer fault st uid qid oid t h).2 uid q.category_id =
        some (progressRowUpdate st q.category_id c pe r) ∧
      (progressRowUpdate st q.category_id c pe r).questions_answered =
        r.questions_answered + 1 ∧
      (progressRowUpdate st q.category_id c pe r).correct_answers =
        r.correct_answers + (if c then 1 else 0) ∧
      (progressRowUpdate st q.category_id c pe r).points_earned = r.points_earned + pe ∧
      (progressRowUpdate st q.category_id c pe r).is_completed =
        completedAfterUpdate st q.category_id (r.questions_answered + 1))
    ∧ (∀ r cat, findProgress st uid q.category_id = some r →
      st.categories.find? (fun x => decide (x.id = q.category_id)) = some cat →
      r.is_completed = true → cat.total_questions ≤ r.questions_answered + 1 →
      ∃ r', findProgress (submitAnswer fault st uid qid oid t h).2 uid q.category_id =
        some r' ∧ r'.is_completed = true) := by
  refine ⟨?_, ?_, ?_⟩
  · exact submit_findProgress_none fault st uid qid oid t h q o c pe heval
  · intro r hr
    exact ⟨submit_findProgress_some fault st uid qid oid t h q o c pe heval r hr,
      rfl, rfl, rfl, rfl⟩
  · intro r cat hr hcat hcompl hle
    refine ⟨progressRowUpdate st q.category_id c pe r,
      submit_findProgress_some fault st uid qid oid t h q o c pe heval r hr, ?_⟩
    show completedAfterUpdate st q.category_id (r.questions_answered + 1) = true
    unfold completedAfterUpdate
    rw [hcat]
    simp only [decide_eq_true_eq]
    omega

/-- Witness for the amended C3 statement at a concrete store: the first
submission in a total_questions = 1 category creates the row with
is_completed = false. -/
theorem completion_flag_characterization_witness :
    findProgress (submitAnswer none (stFresh 1) 1 1 1 10 false).2 1 1 =
      some ⟨1, 1, 1, 1, 15, false⟩ :=
  (completion_flag_characterization none (stFresh 1) 1 1 1 10 false
    ⟨1, 1, 1, 15, true, "exp"⟩ ⟨1, 1, "Yes", 1⟩ true 15 rfl).1 rfl

theorem submit_user_step (fault : Option Nat) (st : DB) (uid qid oid : Nat)
    (t : Rat) (h : Bool) (v : User) (hv : findUser st uid = some v) :
    ∃ v', findUser (submitAnswer fault st uid qid oid t h).2 uid = some v' ∧
      v.best_streak ≤ v'.best_streak ∧
      (v.current_streak ≤ v.best_streak → v'.current_streak ≤ v'.best_streak) := by
  cases heval : evaluateAnswer st qid oid with
  | error e =>
    have hst : (submitAnswer fault st uid qid oid t h).2 = st := by
      unfold submitAnswer; rw [heval]
    exact ⟨v, by rw [hst]; exact hv, le_refl _, fun hvb => hvb⟩
  | ok res =>
    obtain ⟨q, o, c, pe⟩ := res
    refine ⟨userAfterAnswer c pe v,
      submit_findUser fault st uid qid oid t h q o c pe v heval hv, ?_, ?_⟩
    · cases c <;> simp [userAfterAnswer]
    · intro _
      cases c <;> simp [userAfterAnswer]

/-- C4 counterexample: a fresh user (0 points, streaks 0) submits a
correct 15-point answer.  The code sets best_streak to 2 while the claim
requires max(old best_streak, new current_streak) = max 0 1 = 1: MySQL's
left-to-right assignment evaluation makes GREATEST(best_streak,
current_streak + 1) read the already-incremented current_streak. -/
theorem best_streak_counterexample :
    (submitAnswer none (stFresh 5) 1 1 1 10 false).2.users = [⟨1, 15, 1, 2⟩] ∧
    (stFresh 5).users = [⟨1, 0, 0, 0⟩] ∧ (2 : Nat) ≠ max 0 1 := by
  decide

/-- C4 amended: on a correct answer total_points grows by pointsEarned,
current_streak by 1, and best_streak becomes max(old best_streak, new
current_streak + 1) — one more than the spec's formula, because the
GREATEST reads the already-incremented current_streak; on an incorrect
answer current_streak becomes 0 with total_points and best_streak
unchanged.  Over any sequence of submissions best_streak is
non-decreasing and (from any state with best_streak ≥ current_streak)
always at least current_streak. -/
theorem streak_update_characterization :
    (∀ (fault : Option Nat) (st : DB) (uid qid oid : Nat) (t : Rat) (h : Bool)
       (q : Question) (o : AnswerOption) (c : Bool) (pe : Nat) (u : User),
      evaluateAnswer st qid oid = .ok (q, o, c, pe) → findUser st uid = some u →
      findUser (submitAnswer fault st uid qid oid t h).2 uid = some (userAfterAnswer c pe u) ∧
      (c = true → userAfterAnswer c pe u =
        ⟨u.id, u.total_points + pe, u.current_streak + 1,
         max u.best_streak (u.current_streak + 1 + 1)⟩) ∧
      (c = false → userAfterAnswer c pe u = ⟨u.id, u.total_points, 0, u.best_streak⟩) ∧
      u.best_streak ≤ (userAfterAnswer c pe u).best_streak ∧
      (userAfterAnswer c pe u).current_streak ≤ (userAfterAnswer c pe u).best_streak)
    ∧ (∀ (st : DB) (uid : Nat) (subs : List (Nat × Nat × Rat × Bool)) (u : User),
      findUser st uid = some u → u.current_streak ≤ u.best_streak →
      ∃ u', findUser (runSubmissions uid st subs) uid = some u' ∧
        u.best_streak ≤ u'.best_streak ∧ u'.current_streak ≤ u'.best_streak) := by
  constructor
  · intro fault st uid qid oid t h q o c pe u heval hu
    refine ⟨submit_findUser fault st uid qid oid t h q o c pe u heval hu, ?_, ?_, ?_, ?_⟩
    · intro hc; subst hc; rfl
    · intro hc; subst hc; rfl
    · cases c <;> simp [userAfterAnswer]
    · cases c <;> simp [userAfterAnswer]
  · intro st uid subs
    induction subs generalizing st with
    | nil => intro u hu hub; exact ⟨u, hu, le_refl _, hub⟩
    | cons sub rest ih =>
      intro u hu hub
      obtain ⟨v, hv, hbs, hcs⟩ :=
        submit_user_step none st uid sub.1 sub.2.1 sub.2.2.1 sub.2.2.2 u hu
      obtain ⟨u', hu', hbs', hcs'⟩ := ih _ v hv (hcs hub)
      exact ⟨u', hu', le_trans hbs hbs', hcs'⟩

/-- Witness for the amended C4 statement: the fresh user of stFresh ends
with 15 points, streak 1 and best_streak 2. -/
theorem streak_update_characterization_witness :
    findUser (submitAnswer none (stFresh 5) 1 1 1 10 false).2 1 = some ⟨1, 15, 1, 2⟩ :=
  (streak_update_characterization.1 none (stFresh 5) 1 1 1 10 false
    ⟨1, 1, 1, 15, true, "exp"⟩ ⟨1, 1, "Yes", 1⟩ true 15 ⟨1, 0, 0, 0⟩ rfl rfl).1

/-- C5 counterexample: the first (correct) attempt on a question type
creates the performance row with success_rate 0, not 100: the INSERT
branch of the upsert lists no success_rate column, so the column default
0.00 applies. -/
theorem perf_first_attempt_counterexample :
    (submitAnswer none (stFresh 5) 1 1 1 10 false).2.user_question_type_performance =
      [⟨1, 1, 1, 1, 0, 10⟩] ∧ ((0 : Rat) ≠ 1 / 1 * 100) :=
  ⟨by decide, by norm_num⟩

/-- C5 amended: the first attempt creates the row with total_attempts 1,
correct_attempts (1 if correct else 0), avg_time_taken = timeTaken, but
success_rate at its column default 0; a later attempt increments the
counters and — because MySQL evaluates the upsert assignments left to
right on the already-updated columns — sets success_rate to
(new correct_attempts + inc) / (new total_attempts + 1) × 100 and
avg_time_taken to (old avg × new total_attempts + timeTaken) /
(new total_attempts + 1). -/
theorem perf_upsert_characterization
    (fault : Option Nat) (st : DB) (uid qid oid : Nat) (t : Rat) (h : Bool)
    (q : Question) (o : AnswerOption) (c : Bool) (pe : Nat)
    (heval : evaluateAnswer st qid oid = .ok (q, o, c, pe)) :
    (findPerf st uid q.question_type_id = none →
      findPerf (submitAnswer fault st uid qid oid t h).2 uid q.question_type_id =
        some ⟨uid, q.question_type_id, 1, if c then 1 else 0, 0, t⟩)
    ∧ (∀ p, findPerf st uid q.question_type_id = some p →
      findPerf (submitAnswer fault st uid qid oid t h).2 uid q.question_type_id =
        some (perfRowUpdate c t p) ∧
      (perfRowUpdate c t p).total_attempts = p.total_attempts + 1 ∧
      (perfRowUpdate c t p).correct_attempts = p.correct_attempts + (if c then 1 else 0) ∧
      (perfRowUpdate c t p).success_rate =
        (((p.correct_attempts + (if c then 1 else 0) : Nat) : Rat) +
          ((if c then 1 else 0 : Nat) : Rat)) /
          (((p.total_attempts + 1 : Nat) : Rat) + 1) * 100 ∧
      (perfRowUpdate c t p).avg_time_taken =
        (p.avg_time_taken * ((p.total_attempts + 1 : Nat) : Rat) + t) /
          (((p.total_attempts + 1 : Nat) : Rat) + 1)) := by
  refine ⟨?_, ?_⟩
  · exact submit_findPerf_none fault st uid qid oid t h q o c pe heval
  · intro p hp
    exact ⟨submit_findPerf_some fault st uid qid oid t h q o c pe heval p hp,
      rfl, rfl, rfl, rfl⟩

/-- Witness for the amended C5 statement: the first correct attempt in
stFresh creates the performance row with success_rate 0. -/
theorem perf_upsert_characterization_witness :
    findPerf (submitAnswer none (stFresh 5) 1 1 1 10 false).2 1 1 =
      some ⟨1, 1, 1, 1, 0, 10⟩ :=
  (perf_upsert_characterization none (stFresh 5) 1 1 1 10 false
    ⟨1, 1, 1, 15, true, "exp"⟩ ⟨1, 1, "Yes", 1⟩ true 15 rfl).1 rfl

/-- C6 counterexample: option 2 belongs to question 2, yet submitting it
against question 1 is not rejected — the option lookup is by id only, so
the handler scores it as correct and awards question 1's points instead
of failing with a not-found error. -/
theorem evaluator_foreign_option_counterexample :
    evaluateAnswer stTwoQuestions 1 2 =
      .ok (⟨1, 1, 1, 10, true, "e1"⟩, ⟨2, 2, "B", 1⟩, true, 10) ∧
    (⟨2, 2, "B", 1⟩ : AnswerOption).question_id ≠ 1 :=
  ⟨rfl, by decide⟩

/-- C6 amended: the handler fails with a 400 error and no state change
when the question does not exist (or its type row is missing) or when
the selected option id does not exist; it does not check that the option
belongs to the submitted question — whenever both lookups succeed,
isCorrect is the found option's is_correct = 1 and pointsEarned is
question.points if correct else 0, even for an option of another
question. -/
theorem evaluator_characterization (st : DB) (qid oid : Nat) :
    (questionLookup st qid = none →
      evaluateAnswer st qid oid = .error "Question not found" ∧
      ∀ (fault : Option Nat) (uid : Nat) (t : Rat) (h : Bool),
        submitAnswer fault st uid qid oid t h = (.error "Question not found", st))
    ∧ (∀ q, questionLookup st qid = some q → optionLookup st oid = none →
      evaluateAnswer st qid oid = .error "Answer option not found" ∧
      ∀ (fault : Option Nat) (uid : Nat) (t : Rat) (h : Bool),
        submitAnswer fault st uid qid oid t h = (.error "Answer option not found", st))
    ∧ (∀ q o, questionLookup st qid = some q → optionLookup st oid = some o →
      evaluateAnswer st qid oid =
        .ok (q, o, decide (o.is_correct = 1), if o.is_correct = 1 then q.points else 0)) := by
  refine ⟨?_, ?_, ?_⟩
  · intro hq
    have he : evaluateAnswer st qid oid = .error "Question not found" := by
      unfold evaluateAnswer; rw [hq]
    exact ⟨he, fun fault uid t h => by unfold submitAnswer; rw [he]⟩
  · intro q hq ho
    have he : evaluateAnswer st qid oid = .error "Answer option not found" := by
      unfold evaluateAnswer; rw [hq, ho]
    exact ⟨he, fun fault uid t h => by unfold submitAnswer; rw [he]⟩
  · intro q o hq ho
    unfold evaluateAnswer
    rw [hq, ho]

/-- Witness for the amended C6 statement: both lookups succeed although
the option belongs to a different question, and the evaluator scores it. -/
theorem evaluator_characterization_witness :
    evaluateAnswer stTwoQuestions 1 2 =
      .ok (⟨1, 1, 1, 10, true, "e1"⟩, ⟨2, 2, "B", 1⟩, true, 10) :=
  (evaluator_characterization stTwoQuestions 1 2).2.2
    ⟨1, 1, 1, 10, true, "e1"⟩ ⟨2, 2, "B", 1⟩ rfl rfl

theorem reset_survivor_count (st : DB) (uid cid tid : Nat) :
    categoryAttemptJoinCount (resetStep2 st uid cid) uid cid tid = 0 := by
  unfold categoryAttemptJoinCount
  apply List.sum_eq_zero
  intro x hx
  obtain ⟨a, ha, rfl⟩ := List.mem_map.mp hx
  split
  · next hcond =>
    have ha' : a ∈ st.question_attempts.filter (fun a =>
        ! (decide (a.user_id = uid) && questionInCategory st a.question_id cid)) := ha
    have hpred := (List.mem_filter.mp ha').2
    have hq : questionInCategory st a.question_id cid = false := by
      cases hqc : questionInCategory st a.question_id cid
      · rfl
      · exfalso; simp [hqc, hcond.1] at hpred
    show (st.questions.filter (fun q =>
      decide (q.id = a.question_id ∧ q.category_id = cid))).length = 0
    rw [List.length_eq_zero, List.filter_eq_nil_iff]
    intro qq hqm hdec
    have hany : st.questions.any (fun q =>
        decide (q.id = a.question_id ∧ q.category_id = cid)) = true :=
      List.any_eq_true.mpr ⟨qq, hqm, hdec⟩
    unfold questionInCategory at hq
    rw [hq] at hany
    exact Bool.noConfusion hany
  · rfl

theorem reset_survivor_correct_count (st : DB) (uid cid tid : Nat) :
    categoryCorrectJoinCount (resetStep2 st uid cid) uid cid tid = 0 := by
  unfold categoryCorrectJoinCount
  apply List.sum_eq_zero
  intro x hx
  obtain ⟨a, ha, rfl⟩ := List.mem_map.mp hx
  split
  · next hcond =>
    have ha' : a ∈ st.question_attempts.filter (fun a =>
        ! (decide (a.user_id = uid) && questionInCategory st a.question_id cid)) := ha
    have hpred := (List.mem_filter.mp ha').2
    have hq : questionInCategory st a.question_id cid = false := by
      cases hqc : questionInCategory st a.question_id cid
      · rfl
      · exfalso; simp [hqc, hcond.1] at hpred
    show (st.questions.filter (fun q =>
      decide (q.id = a.question_id ∧ q.category_id = cid))).length = 0
    rw [List.length_eq_zero, List.filter_eq_nil_iff]
    intro qq hqm hdec
    have hany : st.questions.any (fun q =>
        decide (q.id = a.question_id ∧ q.category_id = cid)) = true :=
      List.any_eq_true.mpr ⟨qq, hqm, hdec⟩
    unfold questionInCategory at hq
    rw [hq] at hany
    exact Bool.noConfusion hany
  · rfl

theorem reset_perf_unchanged (st : DB) (uid cid : Nat) :
    (resetCategoryProgress st uid cid).user_question_type_performance =
      st.user_question_type_performance := by
  refine map_id_of_eq ?_
  intro p hp
  split
  · next hcond =>
    rw [reset_survivor_count st uid cid p.question_type_id,
        reset_survivor_correct_count st uid cid p.question_type_id]
    simp
  · rfl

theorem find?_userUpdate (l : List User) (uid sum0 : Nat) (u : User)
    (hu : l.find? (userKey uid) = some u) :
    (l.map (fun v => if userKey uid v then { v with total_points := sum0 } else v)).find?
      (userKey uid) = some { u with total_points := sum0 } := by
  rw [@find?_map_update User (userKey uid) (fun v => { v with total_points := sum0 })
    (fun x hx => hx) l, hu]
  rfl

/-- C8 counterexample: user 1 has exactly one (correct) attempt of type
1 in category 1 and a performance row with total_attempts 1.  After the
reset the attempt is deleted, yet the performance row still has
total_attempts 1 instead of 1 - 1 = 0: the decrement subqueries run
after the DELETE and count zero. -/
theorem reset_perf_counterexample :
    categoryAttemptJoinCount stReset 1 1 1 = 1 ∧
    (resetCategoryProgress stReset 1 1).user_question_type_performance =
      [⟨1, 1, 1, 1, 100, 10⟩] ∧
    (1 : Nat) ≠ 1 - 1 := by
  decide

/-- C8 amended: the reset deletes the user's attempts in the category
and the (user, category) progress row, recomputes the user's
total_points as the sum of points_earned over the remaining progress
rows, and leaves current_streak and best_streak untouched — but the
UserQuestionTypePerformance table is left entirely unchanged, because
the decrement subqueries count the user's attempts in the category after
those attempts were already deleted, subtracting zero. -/
theorem reset_characterization (st : DB) (uid cid : Nat) :
    ((resetCategoryProgress st uid cid).question_attempts =
      st.question_attempts.filter (fun a =>
        ! (decide (a.user_id = uid) && questionInCategory st a.question_id cid)))
    ∧ ((resetCategoryProgress st uid cid).user_progress =
      st.user_progress.filter (fun r => ! progKey uid cid r))
    ∧ ((resetCategoryProgress st uid cid).user_question_type_performance =
      st.user_question_type_performance)
    ∧ (∀ u, findUser st uid = some u →
      findUser (resetCategoryProgress st uid cid) uid =
        some { u with total_points :=
          (((st.user_progress.filter (fun r => ! progKey uid cid r)).filter
              (fun r => decide (r.user_id = uid))).map (fun r => r.points_earned)).sum }) := by
  refine ⟨rfl, rfl, reset_perf_unchanged st uid cid, ?_⟩
  intro u hu
  unfold findUser at hu
  exact find?_userUpdate st.users uid
    ((((st.user_progress.filter (fun r => ! progKey uid cid r)).filter
        (fun r => decide (r.user_id = uid))).map (fun r => r.points_earned)).sum) u hu

/-- Witness for the amended C8 statement: after resetting the only
category with progress, user 1's total_points drop to 0 while both
streak fields keep their value 1. -/
theorem reset_characterization_witness :
    findUser (resetCategoryProgress stReset 1 1) 1 = some ⟨1, 0, 1, 1⟩ :=
  (reset_characterization stReset 1 1).2.2.2 ⟨1, 15, 1, 1⟩ rfl

/-- C9: the answer handler never checks whether the user already
attempted the question — whenever the question and option lookups
succeed the submission succeeds, a new attempt row is appended, and the
per-category counters (and points when correct) are incremented, every
time; concretely, submitting the same question three times in a
total_questions = 2 category drives questions_answered to 3 > 2 with
is_completed true. -/
theorem resubmission_not_checked :
    (∀ (fault : Option Nat) (st : DB) (uid qid oid : Nat) (t : Rat) (h : Bool)
       (q : Question) (o : AnswerOption) (c : Bool) (pe : Nat),
      evaluateAnswer st qid oid = .ok (q, o, c, pe) →
      (∃ r, (submitAnswer fault st uid qid oid t h).1 = .ok r) ∧
      (submitAnswer fault st uid qid oid t h).2.question_attempts =
        st.question_attempts ++ [mkAttempt uid qid q.question_type_id oid c t h] ∧
      (∀ p, findProgress st uid q.category_id = some p →
        ∃ p', findProgress (submitAnswer fault st uid qid oid t h).2 uid q.category_id =
            some p' ∧
          p'.questions_answered = p.questions_answered + 1 ∧
          (c = true → p'.correct_answers = p.correct_answers + 1 ∧
            p'.points_earned = p.points_earned + pe)) ∧
      (∀ u, findUser st uid = some u → c = true →
        ∃ u', findUser (submitAnswer fault st uid qid oid t h).2 uid = some u' ∧
          u'.total_points = u.total_points + pe))
    ∧ ((runSubmissions 1 (stFresh 2)
          [(1, 1, 10, false), (1, 1, 10, false), (1, 1, 10, false)]).user_progress =
        [⟨1, 1, 3, 3, 45, true⟩] ∧
      (runSubmissions 1 (stFresh 2)
          [(1, 1, 10, false), (1, 1, 10, false), (1, 1, 10, false)]).question_attempts.length
        = 3 ∧
      (stFresh 2).categories = [⟨1, 2⟩] ∧ 2 < 3) := by
  constructor
  · intro fault st uid qid oid t h q o c pe heval
    refine ⟨⟨_, submit_result fault st uid qid oid t h q o c pe heval⟩,
      submit_attempts_field fault st uid qid oid t h q o c pe heval, ?_, ?_⟩
    · intro p hp
      refine ⟨progressRowUpdate st q.category_id c pe p,
        submit_findProgress_some fault st uid qid oid t h q o c pe heval p hp, rfl, ?_⟩
      intro hc; subst hc; exact ⟨rfl, rfl⟩
    · intro u hu hc
      subst hc
      exact ⟨userAfterAnswer true pe u,
        submit_findUser fault st uid qid oid t h q o true pe u heval hu, rfl⟩
  · exact ⟨by decide, by decide, by decide, by decide⟩

/-- Witness for C9: re-submitting the already-attempted question of
stAllAttempted appends a second attempt row for the same question. -/
theorem resubmission_not_checked_witness :
    (submitAnswer none stAllAttempted 1 1 1 10 false).2.question_attempts =
      stAllAttempted.question_attempts ++ [mkAttempt 1 1 1 1 true 10 false] :=
  (resubmission_not_checked.1 none stAllAttempted 1 1 1 10 false
    ⟨1, 1, 1, 15, true, "exp"⟩ ⟨1, 1, "Yes", 1⟩ true 15 rfl).2.1

/-- C10: the badge awarder never propagates a failure to the answer
flow — a missing user yields an empty list and an unchanged store, an
injected store failure at any badge insert makes the call return an
empty list (inserts already made remain, per the claim), and the
surrounding answer submission still succeeds, reporting exactly the
badge phase's list — the empty list whenever the failure fires. -/
theorem badge_awarder_never_propagates_failure :
    (∀ (fault : Option Nat) (st : DB) (uid : Nat),
      findUser st uid = none → checkAndAwardBadges fault st uid = ([], st))
    ∧ (∀ (st : DB) (uid k : Nat),
      k < (checkAndAwardBadges none st uid).1.length →
      (checkAndAwardBadges (some k) st uid).1 = [])
    ∧ (∀ (fault : Option Nat) (st : DB) (uid qid oid : Nat) (t : Rat) (h : Bool)
         (q : Question) (o : AnswerOption) (c : Bool) (pe : Nat),
      evaluateAnswer st qid oid = .ok (q, o, c, pe) →
      ∃ r, (submitAnswer fault st uid qid oid t h).1 = .ok r ∧
        r.newBadges = (checkAndAwardBadges fault
          (applyFirst 4 (answerSteps uid qid oid q c pe t h) st) uid).1)
    ∧ (∀ (st : DB) (uid qid oid k : Nat) (t : Rat) (h : Bool)
         (q : Question) (o : AnswerOption) (c : Bool) (pe : Nat),
      evaluateAnswer st qid oid = .ok (q, o, c, pe) →
      k < (checkAndAwardBadges none
        (applyFirst 4 (answerSteps uid qid oid q c pe t h) st) uid).1.length →
      ∃ r, (submitAnswer (some k) st uid qid oid t h).1 = .ok r ∧ r.newBadges = []) := by
  have hempty : ∀ (st : DB) (uid k : Nat),
      k < (checkAndAwardBadges none st uid).1.length →
      (checkAndAwardBadges (some k) st uid).1 = [] := by
    intro st uid k hk
    cases hu : findUser st uid with
    | none =>
      have hk' : k < ([] : List Badge).length := by
        unfold checkAndAwardBadges at hk
        rw [hu] at hk
        exact hk
      exact absurd hk' (by simp)
    | some u =>
      have hk' : k < (awardLoop u uid none (eligibleBadges st uid) st []).1.length := by
        unfold checkAndAwardBadges at hk
        rw [hu] at hk
        exact hk
      rw [awardLoop_none_length u uid (eligibleBadges st uid) st []] at hk'
      show (checkAndAwardBadges (some k) st uid).1 = []
      unfold checkAndAwardBadges
      rw [hu]
      exact awardLoop_fault_nil u uid (eligibleBadges st uid) st [] k (by simpa using hk')
  refine ⟨?_, hempty, ?_, ?_⟩
  · intro fault st uid hu
    unfold checkAndAwardBadges
    rw [hu]
  · intro fault st uid qid oid t h q o c pe heval
    exact ⟨_, submit_result fault st uid qid oid t h q o c pe heval, rfl⟩
  · intro st uid qid oid k t h q o c pe heval hk
    exact ⟨_, submit_result (some k) st uid qid oid t h q o c pe heval,
      hempty _ uid k hk⟩

/-- Witness for C10: a store without the user makes the badge awarder
return an empty list and leave the store unchanged. -/
theorem badge_awarder_never_propagates_failure_witness :
    checkAndAwardBadges none stNoUser 1 = ([], stNoUser) :=
  badge_awarder_never_propagates_failure.1 none stNoUser 1 rfl
